import Mathlib

/-!
Shallow embedding of the threshold co-signing transaction coordinator of
`pkg/subnet/public.go` (type `PublicDeployer`).

Modelling conventions:
- `ids.ShortID` addresses are `Nat`.
- The keychain (`keychain.Keychain`) is reduced to the one observation the
  deployer makes of it: `kc.Addresses().List()`.
- External effects (wallet loading, VM id derivation, control-key parsing,
  network issuance, the avalanchego transaction builder and signer) are
  modelled by boolean success flags in `Env`; each flag corresponds to one
  external call site in the Go code.
- Auth-key string parsing (`address.ParseToIDs`) is elided: operations take
  the already parsed key list (the parse preserves list length, which is the
  only property the branching logic reads).
- Log output (`ux.Logger.PrintToUser`, `fmt.Printf`) and the ledger prompt
  are ignored: they do not affect control flow.
-/

namespace AvalancheCli

/-- Signer identity, modelling `ids.ShortID`. -/
abbrev Addr := Nat

/-- The keychain as observed by the deployer: `d.kc.Addresses().List()`. -/
structure Keychain where
  addrs : List Addr
  deriving Repr, DecidableEq

/-- `secp256k1fx.OutputOwners` restricted to the fields the deployer sets. -/
structure OutputOwners where
  threshold : Nat
  addrs : List Addr
  deriving Repr, DecidableEq

/-- `getSubnetAuthAddressesInWallet`: nested loops, outer over the wallet
addresses, inner over the subnet auth addresses, appending `addr` whenever
`addr == walletAddr` (public.go lines 684 to 695). -/
def getSubnetAuthAddressesInWallet (kc : Keychain) (subnetAuth : List Addr) : List Addr :=
  kc.addrs.flatMap (fun walletAddr => subnetAuth.filter (fun addr => addr == walletAddr))

/-- `checkWalletHasSubnetAuthAddresses`: the wallet holds at least one subnet
auth address (public.go lines 698 to 701). -/
def checkWalletHasSubnetAuthAddresses (kc : Keychain) (subnetAuth : List Addr) : Bool :=
  (getSubnetAuthAddressesInWallet kc subnetAuth).length != 0

/-- The option bundle assembled by `getMultisigTxOptions`: the custom
signing-address set and the change-output owner. -/
structure TxOptions where
  customAddrs : List Addr
  changeOwner : OutputOwners
  deriving Repr, DecidableEq

/-- `getMultisigTxOptions` (public.go lines 460 to 475): builds the custom
address set from the subnet auth keys and sets the change owner to a
threshold-1 owner holding `walletAddresses[0]`. The Go expression
`walletAddresses[0]` panics when the intersection is empty; that outcome is
modelled as `none`. -/
def getMultisigTxOptions (kc : Keychain) (subnetAuthKeys : List Addr) : Option TxOptions :=
  match getSubnetAuthAddressesInWallet kc subnetAuthKeys with
  | [] => none
  | walletAddr :: _ =>
    some { customAddrs := subnetAuthKeys
           changeOwner := { threshold := 1, addrs := [walletAddr] } }

/-- Error outcomes of the deployer operations. `insufficientSignatures` is
the error named by the specification for an under-signed submission; it is
listed so that statements about it can be made, no code path produces it.
`indexOutOfRange` models the Go run-time panic at `walletAddresses[0]`. -/
inductive Err where
  | loadWallet
  | parseControlKeys
  | vmID
  | noSubnetAuthKeysInWallet
  | issue
  | builder
  | signing
  | indexOutOfRange
  | insufficientSignatures
  deriving Repr, DecidableEq

/-- Success flags for the external collaborators, one per call site:
`loadWalletOk` for `d.loadWallet`, `vmOk` for `utils.VMID`,
`parseControlKeysOk` for `address.ParseToIDs(controlKeys)` inside
`createSubnetTx`, `subnetIssueOk` for `IssueCreateSubnetTx`, `issueOk` for
the direct-path `IssueXxxTx` calls, `builderOk` for the wallet builder, and
`signOk` for the wallet signer. -/
structure Env where
  loadWalletOk : Bool
  vmOk : Bool
  parseControlKeysOk : Bool
  subnetIssueOk : Bool
  issueOk : Bool
  builderOk : Bool
  signOk : Bool
  deriving Repr, DecidableEq

/-- A transaction as the claims observe it: the change-output owner fixed at
construction time and the set of auth signatures attached so far. -/
structure PTx where
  changeOwner : OutputOwners
  signedBy : List Addr
  deriving Repr, DecidableEq

/-- Modelled from the spec: the wallet signer is avalanchego library code,
outside this repository. Per spec section 4.3 the attacher signs with the
local wallet key material and adds the signatures to the signature map, so
after one signing pass the map holds exactly the custom-set addresses the
wallet controls. -/
def signerSignatures (kc : Keychain) (customAddrs : List Addr) : List Addr :=
  getSubnetAuthAddressesInWallet kc customAddrs

/-- Common body of `createAddSubnetValidatorTx`, `createRemoveValidatorTX`
and `createBlockchainTx`: fetch the multisig options, run the wallet builder
with them, then sign with the current wallet. The action payload (validator,
node id, genesis, chain name) does not influence any claim and is elided. -/
def buildAndSignMultisigTx (env : Env) (kc : Keychain) (subnetAuthKeys : List Addr) :
    Except Err PTx :=
  match getMultisigTxOptions kc subnetAuthKeys with
  | none => .error .indexOutOfRange
  | some options =>
    if !env.builderOk then .error .builder
    else if !env.signOk then .error .signing
    else .ok { changeOwner := options.changeOwner
               signedBy := signerSignatures kc options.customAddrs }

/-- `createAddSubnetValidatorTx` (public.go lines 510 to 527). -/
def createAddSubnetValidatorTx (env : Env) (kc : Keychain) (subnetAuthKeys : List Addr) :
    Except Err PTx :=
  buildAndSignMultisigTx env kc subnetAuthKeys

/-- `createRemoveValidatorTX` (public.go lines 612 to 630). -/
def createRemoveValidatorTX (env : Env) (kc : Keychain) (subnetAuthKeys : List Addr) :
    Except Err PTx :=
  buildAndSignMultisigTx env kc subnetAuthKeys

/-- `createBlockchainTx` (public.go lines 477 to 508). -/
def createBlockchainTx (env : Env) (kc : Keychain) (subnetAuthKeys : List Addr) :
    Except Err PTx :=
  buildAndSignMultisigTx env kc subnetAuthKeys

/-- Result of a deployer governance operation: the fully-signed flag, the
returned transaction artifact (when any), the returned error (when any) and
the number of network issuance attempts made during the invocation. -/
structure OpResult where
  fullySigned : Bool
  tx : Option PTx
  err : Option Err
  issued : Nat
  deriving Repr, DecidableEq

/-- `PublicDeployer.AddValidator` (public.go lines 61 to 109): load wallet,
check the wallet holds a subnet auth key, then branch on
`len(subnetAuthKeys) == 1`: issue directly, or build and partially sign. -/
def AddValidator (env : Env) (kc : Keychain) (subnetAuthKeys : List Addr) : OpResult :=
  if !env.loadWalletOk then ⟨false, none, some .loadWallet, 0⟩
  else if !(checkWalletHasSubnetAuthAddresses kc subnetAuthKeys) then
    ⟨false, none, some .noSubnetAuthKeysInWallet, 0⟩
  else if subnetAuthKeys.length == 1 then
    if env.issueOk then ⟨true, none, none, 1⟩ else ⟨false, none, some .issue, 1⟩
  else
    match createAddSubnetValidatorTx env kc subnetAuthKeys with
    | .error e => ⟨false, none, some e, 0⟩
    | .ok tx => ⟨false, some tx, none, 0⟩

/-- `PublicDeployer.RemoveValidator` (public.go lines 284 to 321): same
shape as `AddValidator`. -/
def RemoveValidator (env : Env) (kc : Keychain) (subnetAuthKeys : List Addr) : OpResult :=
  if !env.loadWalletOk then ⟨false, none, some .loadWallet, 0⟩
  else if !(checkWalletHasSubnetAuthAddresses kc subnetAuthKeys) then
    ⟨false, none, some .noSubnetAuthKeysInWallet, 0⟩
  else if subnetAuthKeys.length == 1 then
    if env.issueOk then ⟨true, none, none, 1⟩ else ⟨false, none, some .issue, 1⟩
  else
    match createRemoveValidatorTX env kc subnetAuthKeys with
    | .error e => ⟨false, none, some e, 0⟩
    | .ok tx => ⟨false, some tx, none, 0⟩

/-- `PublicDeployer.TransformSubnetTx` (public.go lines 226 to 271): the
auth-key parse and the wallet auth check are commented out in the source, as
is the multisig construction; the multisig branch returns no transaction and
no error. -/
def TransformSubnetTx (env : Env) (kc : Keychain) (subnetAuthKeysStrs : List Addr) : OpResult :=
  if !env.loadWalletOk then ⟨false, none, some .loadWallet, 0⟩
  else if subnetAuthKeysStrs.length == 1 then
    if env.issueOk then ⟨true, none, none, 1⟩ else ⟨false, none, some .issue, 1⟩
  else ⟨false, none, none, 0⟩

/-- `PublicDeployer.CreateAssetTx` (public.go lines 111 to 147): no wallet
auth check; the multisig construction is commented out and the multisig
branch returns the empty id with the (nil) outer error. The returned asset
id is not modelled; only the artifact/error shape is observed by claims. -/
def CreateAssetTx (env : Env) (kc : Keychain) (subnetAuthKeysStrs : List Addr) : OpResult :=
  if !env.loadWalletOk then ⟨false, none, some .loadWallet, 0⟩
  else if subnetAuthKeysStrs.length == 1 then
    if env.issueOk then ⟨true, none, none, 1⟩ else ⟨false, none, some .issue, 1⟩
  else ⟨false, none, none, 0⟩

/-- `PublicDeployer.ExportToPChainTx` (public.go lines 149 to 191): no
wallet auth check; the multisig construction is commented out and the
multisig branch returns nil transaction and the (nil) outer error. -/
def ExportToPChainTx (env : Env) (kc : Keychain) (subnetAuthKeysStrs : List Addr) : OpResult :=
  if !env.loadWalletOk then ⟨false, none, some .loadWallet, 0⟩
  else if subnetAuthKeysStrs.length == 1 then
    if env.issueOk then ⟨true, none, none, 1⟩ else ⟨false, none, some .issue, 1⟩
  else ⟨false, none, none, 0⟩

/-- `PublicDeployer.ImportFromXChain` (public.go lines 193 to 224): no
wallet auth check; the multisig construction is commented out and the
multisig branch returns nil transaction and nil error. -/
def ImportFromXChain (env : Env) (kc : Keychain) (subnetAuthKeysStrs : List Addr) : OpResult :=
  if !env.loadWalletOk then ⟨false, none, some .loadWallet, 0⟩
  else if subnetAuthKeysStrs.length == 1 then
    if env.issueOk then ⟨true, none, none, 1⟩ else ⟨false, none, some .issue, 1⟩
  else ⟨false, none, none, 0⟩

/-- `PublicDeployer.Sign` (public.go lines 398 to 421): load wallet, check
the wallet holds a subnet auth key, then sign the given transaction with the
wallet. Returns only an optional error in Go. -/
def Sign (env : Env) (kc : Keychain) (subnetAuthKeys : List Addr) : Option Err :=
  if !env.loadWalletOk then some .loadWallet
  else if !(checkWalletHasSubnetAuthAddresses kc subnetAuthKeys) then
    some .noSubnetAuthKeysInWallet
  else if !env.signOk then some .signing
  else none

/-- Result of `PublicDeployer.Deploy`: the fully-signed flag, the number of
`IssueCreateSubnetTx` attempts, the number of direct-path
`IssueCreateChainTx` attempts, the returned blockchain transaction artifact
(multisig path) and the returned error. -/
structure DeployResult where
  fullySigned : Bool
  subnetIssued : Nat
  blockchainIssued : Nat
  blockchainTx : Option PTx
  err : Option Err
  deriving Repr, DecidableEq

/-- `PublicDeployer.Deploy` (public.go lines 336 to 386): load wallet,
derive the VM id, check the wallet holds a subnet auth key, then issue the
create-subnet transaction via `createSubnetTx` (which first parses the
control keys), and only then branch on `len(subnetAuthKeys) == 1` for the
blockchain step. -/
def Deploy (env : Env) (kc : Keychain) (subnetAuthKeys : List Addr) : DeployResult :=
  if !env.loadWalletOk then ⟨false, 0, 0, none, some .loadWallet⟩
  else if !env.vmOk then ⟨false, 0, 0, none, some .vmID⟩
  else if !(checkWalletHasSubnetAuthAddresses kc subnetAuthKeys) then
    ⟨false, 0, 0, none, some .noSubnetAuthKeysInWallet⟩
  else if !env.parseControlKeysOk then ⟨false, 0, 0, none, some .parseControlKeys⟩
  else if !env.subnetIssueOk then ⟨false, 1, 0, none, some .issue⟩
  else if subnetAuthKeys.length == 1 then
    if env.issueOk then ⟨true, 1, 1, none, none⟩ else ⟨false, 1, 1, none, some .issue⟩
  else
    match createBlockchainTx env kc subnetAuthKeys with
    | .error e => ⟨false, 1, 0, none, some e⟩
    | .ok tx => ⟨false, 1, 0, some tx, none⟩

/-- Result of `PublicDeployer.Commit`: the returned error and the number of
network issuance attempts. -/
structure CommitResult where
  err : Option Err
  issued : Nat
  deriving Repr, DecidableEq

/-- `PublicDeployer.Commit` (public.go lines 388 to 396): load the wallet
and issue the given transaction via `IssueTx`. The transaction content is
not inspected. -/
def Commit (env : Env) (tx : PTx) : CommitResult :=
  if !env.loadWalletOk then ⟨some .loadWallet, 0⟩
  else if env.issueOk then ⟨none, 1⟩ else ⟨some .issue, 1⟩

/-- Modelled from the spec (section 4.1, refinement reference only): the
resolver contract computes the intersection preserving the order of the
required signer list. -/
def resolveRequiredOrder (requiredSigners : List Addr) (localSigners : List Addr) : List Addr :=
  requiredSigners.filter (fun a => a ∈ localSigners)

/-- Environment in which every external collaborator succeeds. -/
def envOk : Env := ⟨true, true, true, true, true, true, true⟩

/- Helper lemmas about the resolver. -/

theorem mem_subnetAuthInWallet (kc : Keychain) (keys : List Addr) (a : Addr) :
    a ∈ getSubnetAuthAddressesInWallet kc keys ↔ a ∈ kc.addrs ∧ a ∈ keys := by
  unfold getSubnetAuthAddressesInWallet
  simp only [List.mem_flatMap, List.mem_filter, beq_iff_eq]
  constructor
  · rintro ⟨w, hw, ha, hae⟩
    subst hae
    exact ⟨hw, ha⟩
  · rintro ⟨hw, ha⟩
    exact ⟨a, hw, ha, rfl⟩

theorem check_true_iff (kc : Keychain) (keys : List Addr) :
    checkWalletHasSubnetAuthAddresses kc keys = true ↔
      getSubnetAuthAddressesInWallet kc keys ≠ [] := by
  unfold checkWalletHasSubnetAuthAddresses
  cases h : getSubnetAuthAddressesInWallet kc keys <;> simp [h]

theorem options_of_cons (kc : Keychain) (keys : List Addr) (first : Addr) (rest : List Addr)
    (h : getSubnetAuthAddressesInWallet kc keys = first :: rest) :
    getMultisigTxOptions kc keys =
      some ⟨keys, ⟨1, [first]⟩⟩ := by
  unfold getMultisigTxOptions
  rw [h]

theorem filter_beq_of_nodup (l : List Addr) (w : Addr) (h : l.Nodup) :
    l.filter (fun a => a == w) = if w ∈ l then [w] else [] := by
  induction l with
  | nil => simp
  | cons b t ih =>
    rw [List.nodup_cons] at h
    by_cases hbw : b = w
    · subst hbw
      have ht : t.filter (fun a => a == b) = [] := by
        rw [ih h.2]
        simp [h.1]
      simp [List.filter_cons, ht]
    · have : (b == w) = false := by simp [hbw]
      simp only [List.filter_cons, this, Bool.false_eq_true, if_false, ih h.2,
        List.mem_cons]
      have hwb : ¬ w = b := fun he => hbw he.symm
      simp [hwb]

/-- C1 counterexample: a transaction carrying zero signatures against a
threshold-2 owner; `Commit` attempts the network submission (one issuance)
and returns no error at all, in particular not the insufficient-signatures
failure the claim requires before submission. -/
theorem commit_submits_undersigned_tx_cex :
    (PTx.mk ⟨2, [0, 1]⟩ []).signedBy.length < 2 ∧
    (Commit envOk (PTx.mk ⟨2, [0, 1]⟩ [])).issued = 1 ∧
    (Commit envOk (PTx.mk ⟨2, [0, 1]⟩ [])).err = none := by decide

/-- C1 amended: `Commit` performs no local signature-count check at all:
whenever the wallet loads, it submits the given transaction to the network
exactly once, regardless of the attached signatures, and never returns an
insufficient-signatures error; under-signed transactions are left for the
network to reject. -/
theorem commit_always_submits (env : Env) (tx : PTx)
    (h : env.loadWalletOk = true) :
    (Commit env tx).issued = 1 ∧
    (Commit env tx).err ≠ some Err.insufficientSignatures := by
  cases hi : env.issueOk <;> simp [Commit, h, hi]

/-- C1 amended witness at a concrete unsigned transaction. -/
theorem commit_always_submits_witness :
    envOk.loadWalletOk = true ∧
    ((Commit envOk (PTx.mk ⟨2, [0, 1]⟩ [])).issued = 1 ∧
      (Commit envOk (PTx.mk ⟨2, [0, 1]⟩ [])).err ≠ some Err.insufficientSignatures) :=
  ⟨rfl, commit_always_submits envOk (PTx.mk ⟨2, [0, 1]⟩ []) rfl⟩

/-- C4 counterexample: with wallet address order `[2, 1]` and required
signer order `[1, 2]`, the resolver returns `[2, 1]` (wallet order), not the
required-set order `[1, 2]` demanded by the claim. -/
theorem intersection_wallet_order_cex :
    getSubnetAuthAddressesInWallet ⟨[2, 1]⟩ [1, 2] = [2, 1] ∧
    resolveRequiredOrder [1, 2] [2, 1] = [1, 2] ∧
    getSubnetAuthAddressesInWallet ⟨[2, 1]⟩ [1, 2] ≠
      resolveRequiredOrder [1, 2] [2, 1] := by decide

/-- C4 amended: for a duplicate-free required signer list, the resolver
returns the intersection in the order of the wallet address list (outer loop
over wallet addresses), which is still deterministic in its inputs. -/
theorem intersection_follows_wallet_order (kc : Keychain) (keys : List Addr)
    (h : keys.Nodup) :
    getSubnetAuthAddressesInWallet kc keys =
      kc.addrs.filter (fun a => a ∈ keys) := by
  unfold getSubnetAuthAddressesInWallet
  induction kc.addrs with
  | nil => rfl
  | cons w ws ih =>
    rw [List.flatMap_cons, ih, List.filter_cons, filter_beq_of_nodup keys w h]
    by_cases hw : w ∈ keys <;> simp [hw]

/-- C4 amended witness: wallet order `[2, 1]` against required list
`[1, 2]`. -/
theorem intersection_follows_wallet_order_witness :
    ([1, 2] : List Addr).Nodup ∧
    getSubnetAuthAddressesInWallet ⟨[2, 1]⟩ [1, 2] =
      (Keychain.mk [2, 1]).addrs.filter (fun a => a ∈ ([1, 2] : List Addr)) :=
  ⟨by decide, intersection_follows_wallet_order ⟨[2, 1]⟩ [1, 2] (by decide)⟩

/-- C10: whenever `checkWalletHasSubnetAuthAddresses` has passed for the
same keychain and auth key list, the intersection queried by
`getMultisigTxOptions` is non-empty, so the index-0 access is in bounds: the
option bundle is produced and the out-of-range outcome is unreachable in
every multisig construction. -/
theorem multisig_options_safe_after_check (kc : Keychain) (keys : List Addr)
    (hcheck : checkWalletHasSubnetAuthAddresses kc keys = true) :
    (getMultisigTxOptions kc keys).isSome = true ∧
    ∀ env : Env, buildAndSignMultisigTx env kc keys ≠ .error Err.indexOutOfRange := by
  have hne := (check_true_iff kc keys).mp hcheck
  obtain ⟨first, rest, hfr⟩ := List.exists_cons_of_ne_nil hne
  have hopt := options_of_cons kc keys first rest hfr
  refine ⟨by rw [hopt]; rfl, ?_⟩
  intro env
  unfold buildAndSignMultisigTx
  rw [hopt]
  cases hb : env.builderOk <;> cases hs : env.signOk <;> simp

/-- C10 witness: a wallet holding one of two required signers. -/
theorem multisig_options_safe_after_check_witness :
    checkWalletHasSubnetAuthAddresses ⟨[1]⟩ [1, 2] = true ∧
    ((getMultisigTxOptions ⟨[1]⟩ [1, 2]).isSome = true ∧
      ∀ env : Env, buildAndSignMultisigTx env ⟨[1]⟩ [1, 2] ≠ .error Err.indexOutOfRange) :=
  ⟨by decide, multisig_options_safe_after_check ⟨[1]⟩ [1, 2] (by decide)⟩

/-- C2 counterexample: keychain `[5]` shares no address with the required
signers `[0, 1]` (empty intersection), yet `TransformSubnetTx` returns no
error at all — its auth check is commented out in the source — instead of
failing with `ErrNoSubnetAuthKeysInWallet` before building. -/
theorem transform_subnet_skips_auth_check_cex :
    getSubnetAuthAddressesInWallet ⟨[5]⟩ [0, 1] = [] ∧
    (TransformSubnetTx envOk ⟨[5]⟩ [0, 1]).err = none := by decide

/-- C2 amended: when the wallet controls none of the required signers, only
`AddValidator`, `RemoveValidator`, `Deploy` and `Sign` fail with
`ErrNoSubnetAuthKeysInWallet` before building or issuing anything;
`TransformSubnetTx`, `CreateAssetTx`, `ExportToPChainTx` and
`ImportFromXChain` perform no such check and never return that error. -/
theorem auth_check_coverage (env : Env) (kc : Keychain) (keys : List Addr)
    (hload : env.loadWalletOk = true) (hvm : env.vmOk = true)
    (hempty : getSubnetAuthAddressesInWallet kc keys = []) :
    AddValidator env kc keys = ⟨false, none, some .noSubnetAuthKeysInWallet, 0⟩ ∧
    RemoveValidator env kc keys = ⟨false, none, some .noSubnetAuthKeysInWallet, 0⟩ ∧
    Deploy env kc keys = ⟨false, 0, 0, none, some .noSubnetAuthKeysInWallet⟩ ∧
    Sign env kc keys = some .noSubnetAuthKeysInWallet ∧
    (TransformSubnetTx env kc keys).err ≠ some .noSubnetAuthKeysInWallet ∧
    (CreateAssetTx env kc keys).err ≠ some .noSubnetAuthKeysInWallet ∧
    (ExportToPChainTx env kc keys).err ≠ some .noSubnetAuthKeysInWallet ∧
    (ImportFromXChain env kc keys).err ≠ some .noSubnetAuthKeysInWallet := by
  have hcheck : checkWalletHasSubnetAuthAddresses kc keys = false := by
    simp [checkWalletHasSubnetAuthAddresses, hempty]
  refine ⟨?_, ?_, ?_, ?_, ?_, ?_, ?_, ?_⟩
  · simp [AddValidator, hload, hcheck]
  · simp [RemoveValidator, hload, hcheck]
  · simp [Deploy, hload, hvm, hcheck]
  · simp [Sign, hload, hcheck]
  · cases hl : keys.length == 1 <;> cases hi : env.issueOk <;>
      simp [TransformSubnetTx, hload, hl, hi]
  · cases hl : keys.length == 1 <;> cases hi : env.issueOk <;>
      simp [CreateAssetTx, hload, hl, hi]
  · cases hl : keys.length == 1 <;> cases hi : env.issueOk <;>
      simp [ExportToPChainTx, hload, hl, hi]
  · cases hl : keys.length == 1 <;> cases hi : env.issueOk <;>
      simp [ImportFromXChain, hload, hl, hi]

/-- C2 amended witness: empty intersection for keychain `[5]` against
required signers `[0, 1]`. -/
theorem auth_check_coverage_witness :
    (envOk.loadWalletOk = true ∧ envOk.vmOk = true ∧
      getSubnetAuthAddressesInWallet ⟨[5]⟩ [0, 1] = []) ∧
    AddValidator envOk ⟨[5]⟩ [0, 1] = ⟨false, none, some .noSubnetAuthKeysInWallet, 0⟩ ∧
    RemoveValidator envOk ⟨[5]⟩ [0, 1] = ⟨false, none, some .noSubnetAuthKeysInWallet, 0⟩ ∧
    Deploy envOk ⟨[5]⟩ [0, 1] = ⟨false, 0, 0, none, some .noSubnetAuthKeysInWallet⟩ ∧
    Sign envOk ⟨[5]⟩ [0, 1] = some .noSubnetAuthKeysInWallet ∧
    (TransformSubnetTx envOk ⟨[5]⟩ [0, 1]).err ≠ some .noSubnetAuthKeysInWallet ∧
    (CreateAssetTx envOk ⟨[5]⟩ [0, 1]).err ≠ some .noSubnetAuthKeysInWallet ∧
    (ExportToPChainTx envOk ⟨[5]⟩ [0, 1]).err ≠ some .noSubnetAuthKeysInWallet ∧
    (ImportFromXChain envOk ⟨[5]⟩ [0, 1]).err ≠ some .noSubnetAuthKeysInWallet :=
  ⟨⟨rfl, rfl, by decide⟩, auth_check_coverage envOk ⟨[5]⟩ [0, 1] rfl rfl (by decide)⟩

/-- C3: once the wallet is loaded and the auth check has passed, the choice
between the direct path (one immediate issuance, no artifact) and the
multisig path (no issuance, partially signed artifact unless a builder or
signer error occurs) in `AddValidator` and `RemoveValidator` depends only on
whether the required signer list has exactly one element — the statement
quantifies over every keychain passing the check, so the intersection size
plays no role. -/
theorem path_choice_by_auth_set_size (env : Env) (kc : Keychain) (keys : List Addr)
    (hload : env.loadWalletOk = true)
    (hcheck : checkWalletHasSubnetAuthAddresses kc keys = true) :
    (keys.length = 1 →
      (AddValidator env kc keys).issued = 1 ∧ (AddValidator env kc keys).tx = none ∧
      ((AddValidator env kc keys).err = none → (AddValidator env kc keys).fullySigned = true) ∧
      (RemoveValidator env kc keys).issued = 1 ∧ (RemoveValidator env kc keys).tx = none ∧
      ((RemoveValidator env kc keys).err = none →
        (RemoveValidator env kc keys).fullySigned = true)) ∧
    (2 ≤ keys.length →
      (AddValidator env kc keys).issued = 0 ∧
      (AddValidator env kc keys).fullySigned = false ∧
      ((AddValidator env kc keys).err = none → (AddValidator env kc keys).tx.isSome = true) ∧
      (RemoveValidator env kc keys).issued = 0 ∧
      (RemoveValidator env kc keys).fullySigned = false ∧
      ((RemoveValidator env kc keys).err = none →
        (RemoveValidator env kc keys).tx.isSome = true)) := by
  constructor
  · intro hlen
    have hl : (keys.length == 1) = true := by simp [hlen]
    cases hi : env.issueOk <;>
      simp [AddValidator, RemoveValidator, hload, hcheck, hl, hi]
  · intro hlen
    have hl : (keys.length == 1) = false := by
      have : keys.length ≠ 1 := by omega
      simp [this]
    have hne := (check_true_iff kc keys).mp hcheck
    obtain ⟨first, rest, hfr⟩ := List.exists_cons_of_ne_nil hne
    have hopt := options_of_cons kc keys first rest hfr
    cases hb : env.builderOk <;> cases hs : env.signOk <;>
      simp [AddValidator, RemoveValidator, createAddSubnetValidatorTx,
        createRemoveValidatorTX, buildAndSignMultisigTx, hopt,
        hload, hcheck, hl, hb, hs]

/-- C3 witness: direct path for a singleton auth set and multisig path for a
two-element auth set, both under keychain `[1]`. -/
theorem path_choice_by_auth_set_size_witness :
    (envOk.loadWalletOk = true ∧
      checkWalletHasSubnetAuthAddresses ⟨[1]⟩ [1] = true ∧
      checkWalletHasSubnetAuthAddresses ⟨[1]⟩ [1, 2] = true) ∧
    (([1] : List Addr).length = 1 →
      (AddValidator envOk ⟨[1]⟩ [1]).issued = 1 ∧ (AddValidator envOk ⟨[1]⟩ [1]).tx = none ∧
      ((AddValidator envOk ⟨[1]⟩ [1]).err = none →
        (AddValidator envOk ⟨[1]⟩ [1]).fullySigned = true) ∧
      (RemoveValidator envOk ⟨[1]⟩ [1]).issued = 1 ∧
      (RemoveValidator envOk ⟨[1]⟩ [1]).tx = none ∧
      ((RemoveValidator envOk ⟨[1]⟩ [1]).err = none →
        (RemoveValidator envOk ⟨[1]⟩ [1]).fullySigned = true)) ∧
    (2 ≤ ([1, 2] : List Addr).length →
      (AddValidator envOk ⟨[1]⟩ [1, 2]).issued = 0 ∧
      (AddValidator envOk ⟨[1]⟩ [1, 2]).fullySigned = false ∧
      ((AddValidator envOk ⟨[1]⟩ [1, 2]).err = none →
        (AddValidator envOk ⟨[1]⟩ [1, 2]).tx.isSome = true) ∧
      (RemoveValidator envOk ⟨[1]⟩ [1, 2]).issued = 0 ∧
      (RemoveValidator envOk ⟨[1]⟩ [1, 2]).fullySigned = false ∧
      ((RemoveValidator envOk ⟨[1]⟩ [1, 2]).err = none →
        (RemoveValidator envOk ⟨[1]⟩ [1, 2]).tx.isSome = true)) :=
  ⟨⟨rfl, by decide, by decide⟩,
    (path_choice_by_auth_set_size envOk ⟨[1]⟩ [1] rfl (by decide)).1,
    (path_choice_by_auth_set_size envOk ⟨[1]⟩ [1, 2] rfl (by decide)).2⟩

/-- C5: whenever the auth check passes, `getMultisigTxOptions` rewrites the
change owner to a threshold-1 owner whose sole address is the first entry of
the wallet/required-set intersection, an address present in both the local
wallet and the required signer set, and every multisig construction built
from those options carries exactly that change owner before and after
signing. -/
theorem multisig_change_owner_first_intersection (env : Env) (kc : Keychain)
    (keys : List Addr)
    (hcheck : checkWalletHasSubnetAuthAddresses kc keys = true) :
    ∃ first rest, getSubnetAuthAddressesInWallet kc keys = first :: rest ∧
      first ∈ kc.addrs ∧ first ∈ keys ∧
      getMultisigTxOptions kc keys = some ⟨keys, ⟨1, [first]⟩⟩ ∧
      (∀ tx : PTx, buildAndSignMultisigTx env kc keys = .ok tx →
        tx.changeOwner = ⟨1, [first]⟩) := by
  have hne := (check_true_iff kc keys).mp hcheck
  obtain ⟨first, rest, hfr⟩ := List.exists_cons_of_ne_nil hne
  have hmem : first ∈ getSubnetAuthAddressesInWallet kc keys := by
    rw [hfr]; exact List.mem_cons_self first rest
  have hmem2 := (mem_subnetAuthInWallet kc keys first).mp hmem
  have hopt := options_of_cons kc keys first rest hfr
  refine ⟨first, rest, hfr, hmem2.1, hmem2.2, hopt, ?_⟩
  intro tx htx
  unfold buildAndSignMultisigTx at htx
  rw [hopt] at htx
  cases hb : env.builderOk <;> cases hs : env.signOk <;>
    simp [hb, hs] at htx
  exact htx ▸ rfl

/-- C5 witness: keychain `[1]` against required signers `[1, 2]`. -/
theorem multisig_change_owner_first_intersection_witness :
    checkWalletHasSubnetAuthAddresses ⟨[1]⟩ [1, 2] = true ∧
    (∃ first rest, getSubnetAuthAddressesInWallet ⟨[1]⟩ [1, 2] = first :: rest ∧
      first ∈ (Keychain.mk [1]).addrs ∧ first ∈ ([1, 2] : List Addr) ∧
      getMultisigTxOptions ⟨[1]⟩ [1, 2] = some ⟨[1, 2], ⟨1, [first]⟩⟩ ∧
      (∀ tx : PTx, buildAndSignMultisigTx envOk ⟨[1]⟩ [1, 2] = .ok tx →
        tx.changeOwner = ⟨1, [first]⟩)) :=
  ⟨by decide, multisig_change_owner_first_intersection envOk ⟨[1]⟩ [1, 2] (by decide)⟩

/-- C6 counterexample: on the multisig path (two required signers, one of
them in the wallet) `ImportFromXChain` returns no transaction artifact and
no error — its multisig construction is commented out in the source — in
contradiction with the claimed totality of the action-to-builder mapping. -/
theorem import_multisig_no_tx_no_err_cex :
    (ImportFromXChain envOk ⟨[0]⟩ [0, 1]).tx = none ∧
    (ImportFromXChain envOk ⟨[0]⟩ [0, 1]).err = none ∧
    (ImportFromXChain envOk ⟨[0]⟩ [0, 1]).issued = 0 := by decide

/-- C6 amended: on the multisig path, `AddValidator`, `RemoveValidator` and
`Deploy` produce a partially signed artifact or an error, but
`CreateAssetTx`, `ExportToPChainTx`, `ImportFromXChain` and
`TransformSubnetTx` return no transaction and no error (their multisig
builders are disabled), so the action-to-builder mapping is total only for
the former three. -/
theorem multisig_builder_coverage (env : Env) (kc : Keychain) (keys : List Addr)
    (hload : env.loadWalletOk = true) (hlen : 2 ≤ keys.length) :
    ((CreateAssetTx env kc keys).tx = none ∧ (CreateAssetTx env kc keys).err = none ∧
      (CreateAssetTx env kc keys).issued = 0) ∧
    ((ExportToPChainTx env kc keys).tx = none ∧ (ExportToPChainTx env kc keys).err = none ∧
      (ExportToPChainTx env kc keys).issued = 0) ∧
    ((ImportFromXChain env kc keys).tx = none ∧ (ImportFromXChain env kc keys).err = none ∧
      (ImportFromXChain env kc keys).issued = 0) ∧
    ((TransformSubnetTx env kc keys).tx = none ∧ (TransformSubnetTx env kc keys).err = none ∧
      (TransformSubnetTx env kc keys).issued = 0) ∧
    (checkWalletHasSubnetAuthAddresses kc keys = true →
      ((AddValidator env kc keys).err = none → (AddValidator env kc keys).tx.isSome = true) ∧
      ((RemoveValidator env kc keys).err = none →
        (RemoveValidator env kc keys).tx.isSome = true) ∧
      ((Deploy env kc keys).err = none → (Deploy env kc keys).blockchainTx.isSome = true)) := by
  have hl : (keys.length == 1) = false := by
    have : keys.length ≠ 1 := by omega
    simp [this]
  refine ⟨?_, ?_, ?_, ?_, ?_⟩
  · simp [CreateAssetTx, hload, hl]
  · simp [ExportToPChainTx, hload, hl]
  · simp [ImportFromXChain, hload, hl]
  · simp [TransformSubnetTx, hload, hl]
  · intro hcheck
    have hne := (check_true_iff kc keys).mp hcheck
    obtain ⟨first, rest, hfr⟩ := List.exists_cons_of_ne_nil hne
    have hopt := options_of_cons kc keys first rest hfr
    refine ⟨?_, ?_, ?_⟩
    · cases hb : env.builderOk <;> cases hs : env.signOk <;>
        simp [AddValidator, createAddSubnetValidatorTx, buildAndSignMultisigTx,
          hopt, hload, hcheck, hl, hb, hs]
    · cases hb : env.builderOk <;> cases hs : env.signOk <;>
        simp [RemoveValidator, createRemoveValidatorTX, buildAndSignMultisigTx,
          hopt, hload, hcheck, hl, hb, hs]
    · cases hv : env.vmOk <;> cases hp : env.parseControlKeysOk <;>
        cases hsi : env.subnetIssueOk <;>
        cases hb : env.builderOk <;> cases hs : env.signOk <;>
        simp [Deploy, createBlockchainTx, buildAndSignMultisigTx,
          hopt, hload, hcheck, hl, hv, hp, hsi, hb, hs]

/-- C6 amended witness: keychain `[0]` against required signers `[0, 1]`. -/
theorem multisig_builder_coverage_witness :
    (envOk.loadWalletOk = true ∧ 2 ≤ ([0, 1] : List Addr).length) ∧
    ((CreateAssetTx envOk ⟨[0]⟩ [0, 1]).tx = none ∧
      (CreateAssetTx envOk ⟨[0]⟩ [0, 1]).err = none ∧
      (CreateAssetTx envOk ⟨[0]⟩ [0, 1]).issued = 0) ∧
    ((ExportToPChainTx envOk ⟨[0]⟩ [0, 1]).tx = none ∧
      (ExportToPChainTx envOk ⟨[0]⟩ [0, 1]).err = none ∧
      (ExportToPChainTx envOk ⟨[0]⟩ [0, 1]).issued = 0) ∧
    ((ImportFromXChain envOk ⟨[0]⟩ [0, 1]).tx = none ∧
      (ImportFromXChain envOk ⟨[0]⟩ [0, 1]).err = none ∧
      (ImportFromXChain envOk ⟨[0]⟩ [0, 1]).issued = 0) ∧
    ((TransformSubnetTx envOk ⟨[0]⟩ [0, 1]).tx = none ∧
      (TransformSubnetTx envOk ⟨[0]⟩ [0, 1]).err = none ∧
      (TransformSubnetTx envOk ⟨[0]⟩ [0, 1]).issued = 0) ∧
    (checkWalletHasSubnetAuthAddresses ⟨[0]⟩ [0, 1] = true →
      ((AddValidator envOk ⟨[0]⟩ [0, 1]).err = none →
        (AddValidator envOk ⟨[0]⟩ [0, 1]).tx.isSome = true) ∧
      ((RemoveValidator envOk ⟨[0]⟩ [0, 1]).err = none →
        (RemoveValidator envOk ⟨[0]⟩ [0, 1]).tx.isSome = true) ∧
      ((Deploy envOk ⟨[0]⟩ [0, 1]).err = none →
        (Deploy envOk ⟨[0]⟩ [0, 1]).blockchainTx.isSome = true)) :=
  ⟨⟨rfl, by decide⟩, multisig_builder_coverage envOk ⟨[0]⟩ [0, 1] rfl (by decide)⟩

/-- C7: when the required signer list is the singleton of an address the
wallet controls and the external calls succeed, `AddValidator` takes the
direct path: exactly one network issuance, fully-signed true, no transaction
artifact and no error — never an awaiting-co-signers result. -/
theorem addValidator_single_signer_direct_path (env : Env) (kc : Keychain) (x : Addr)
    (hload : env.loadWalletOk = true) (hissue : env.issueOk = true)
    (hx : x ∈ kc.addrs) :
    AddValidator env kc [x] = ⟨true, none, none, 1⟩ := by
  have hmem : x ∈ getSubnetAuthAddressesInWallet kc [x] :=
    (mem_subnetAuthInWallet kc [x] x).mpr ⟨hx, List.mem_singleton.mpr rfl⟩
  have hcheck : checkWalletHasSubnetAuthAddresses kc [x] = true :=
    (check_true_iff kc [x]).mpr (List.ne_nil_of_mem hmem)
  simp [AddValidator, hload, hcheck, hissue]

/-- C7 witness: singleton auth set `[7]` controlled by the wallet. -/
theorem addValidator_single_signer_direct_path_witness :
    (envOk.loadWalletOk = true ∧ envOk.issueOk = true ∧ 7 ∈ (Keychain.mk [7]).addrs) ∧
    AddValidator envOk ⟨[7]⟩ [7] = ⟨true, none, none, 1⟩ :=
  ⟨⟨rfl, rfl, by decide⟩,
    addValidator_single_signer_direct_path envOk ⟨[7]⟩ 7 rfl rfl (by decide)⟩

/-- C8: for a required signer list of size at least two of which the wallet
controls at least one member (the auth check passes), `RemoveValidator`
returns fully-signed false with a partially signed transaction whose
signature map holds exactly the wallet-controlled required signers (the
signature of the one local co-signing pass) and whose change owner is the
threshold-1 owner of the first intersection entry — a wallet-controlled
address — and makes no network issuance attempt. -/
theorem removeValidator_multisig_artifact (env : Env) (kc : Keychain) (keys : List Addr)
    (hload : env.loadWalletOk = true) (hbuild : env.builderOk = true)
    (hsign : env.signOk = true) (hlen : 2 ≤ keys.length)
    (hcheck : checkWalletHasSubnetAuthAddresses kc keys = true) :
    ∃ (tx : PTx) (first : Addr) (rest : List Addr),
      RemoveValidator env kc keys = ⟨false, some tx, none, 0⟩ ∧
      getSubnetAuthAddressesInWallet kc keys = first :: rest ∧
      tx.signedBy = getSubnetAuthAddressesInWallet kc keys ∧
      tx.changeOwner = ⟨1, [first]⟩ ∧
      first ∈ kc.addrs := by
  have hne := (check_true_iff kc keys).mp hcheck
  obtain ⟨first, rest, hfr⟩ := List.exists_cons_of_ne_nil hne
  have hopt := options_of_cons kc keys first rest hfr
  have hmem : first ∈ getSubnetAuthAddressesInWallet kc keys := by
    rw [hfr]; exact List.mem_cons_self first rest
  have hfw := ((mem_subnetAuthInWallet kc keys first).mp hmem).1
  have hl : (keys.length == 1) = false := by
    have : keys.length ≠ 1 := by omega
    simp [this]
  refine ⟨⟨⟨1, [first]⟩, signerSignatures kc keys⟩, first, rest, ?_, hfr, ?_, rfl, hfw⟩
  · simp [RemoveValidator, createRemoveValidatorTX, buildAndSignMultisigTx,
      hopt, hload, hcheck, hl, hbuild, hsign]
  · simp [signerSignatures]

/-- C8 witness: wallet controlling exactly one of the two required signers,
so the artifact carries exactly one signature. -/
theorem removeValidator_multisig_artifact_witness :
    (envOk.loadWalletOk = true ∧ envOk.builderOk = true ∧ envOk.signOk = true ∧
      2 ≤ ([1, 2] : List Addr).length ∧
      checkWalletHasSubnetAuthAddresses ⟨[1]⟩ [1, 2] = true) ∧
    ∃ (tx : PTx) (first : Addr) (rest : List Addr),
      RemoveValidator envOk ⟨[1]⟩ [1, 2] = ⟨false, some tx, none, 0⟩ ∧
      getSubnetAuthAddressesInWallet ⟨[1]⟩ [1, 2] = first :: rest ∧
      tx.signedBy = getSubnetAuthAddressesInWallet ⟨[1]⟩ [1, 2] ∧
      tx.changeOwner = ⟨1, [first]⟩ ∧
      first ∈ (Keychain.mk [1]).addrs :=
  ⟨⟨rfl, rfl, rfl, by decide, by decide⟩,
    removeValidator_multisig_artifact envOk ⟨[1]⟩ [1, 2] rfl rfl rfl (by decide) (by decide)⟩

/-- C9: once the precondition checks of `Deploy` pass (wallet loads, VM id
derives, control keys parse, auth check holds), the create-subnet
transaction is issued exactly once, whatever the size of the auth key list
and whatever the later steps do; and for an auth key list of size at least
two the blockchain step makes no direct issuance and never reports fully
signed — only the blockchain step takes the multisig path. -/
theorem deploy_subnet_issued_unconditionally (env : Env) (kc : Keychain) (keys : List Addr)
    (hload : env.loadWalletOk = true) (hvm : env.vmOk = true)
    (hparse : env.parseControlKeysOk = true)
    (hcheck : checkWalletHasSubnetAuthAddresses kc keys = true) :
    (Deploy env kc keys).subnetIssued = 1 ∧
    (2 ≤ keys.length →
      (Deploy env kc keys).blockchainIssued = 0 ∧
      (Deploy env kc keys).fullySigned = false) := by
  have hne := (check_true_iff kc keys).mp hcheck
  obtain ⟨first, rest, hfr⟩ := List.exists_cons_of_ne_nil hne
  have hopt := options_of_cons kc keys first rest hfr
  constructor
  · cases hsi : env.subnetIssueOk <;> cases hl : keys.length == 1 <;>
      cases hi : env.issueOk <;> cases hb : env.builderOk <;> cases hs : env.signOk <;>
      simp [Deploy, createBlockchainTx, buildAndSignMultisigTx,
        hopt, hload, hvm, hparse, hcheck, hsi, hl, hi, hb, hs]
  · intro hlen
    have hl : (keys.length == 1) = false := by
      have : keys.length ≠ 1 := by omega
      simp [this]
    cases hsi : env.subnetIssueOk <;> cases hb : env.builderOk <;>
      cases hs : env.signOk <;>
      simp [Deploy, createBlockchainTx, buildAndSignMultisigTx,
        hopt, hload, hvm, hparse, hcheck, hsi, hl, hb, hs]

/-- C9 witness: keychain `[1]`, two required signers. -/
theorem deploy_subnet_issued_unconditionally_witness :
    (envOk.loadWalletOk = true ∧ envOk.vmOk = true ∧ envOk.parseControlKeysOk = true ∧
      checkWalletHasSubnetAuthAddresses ⟨[1]⟩ [1, 2] = true) ∧
    (Deploy envOk ⟨[1]⟩ [1, 2]).subnetIssued = 1 ∧
    (2 ≤ ([1, 2] : List Addr).length →
      (Deploy envOk ⟨[1]⟩ [1, 2]).blockchainIssued = 0 ∧
      (Deploy envOk ⟨[1]⟩ [1, 2]).fullySigned = false) :=
  ⟨⟨rfl, rfl, rfl, by decide⟩,
    deploy_subnet_issued_unconditionally envOk ⟨[1]⟩ [1, 2] rfl rfl rfl (by decide)⟩

end AvalancheCli
